import Mathlib

/-!
Verification of the distributed-coordination core of the vSphere shared
volume plugin (client_plugin/drivers/shared/etcdops.go).

The development shallowly embeds the core of etcdops.go:

* the configuration constants of the file,
* the refcount watcher event handler (etcdEventHandler), embedded as a
  function from the results of its external calls (CompareAndPut against
  the replicated store, SMB start/stop) to the trace of calls it performs,
* the metadata API (WriteVolMetadata, ReadVolMetadata, DeleteVolMetadata)
  over a store modelled as a partial map from keys to values,
* the bootstrap path (Init, joinEtcdCluster, checkLocalEtcd) with the
  external world (docker role, etcd member lists, poll outcomes) passed
  as explicit parameters,
* the client-lifecycle behaviour of each metadata call as an action list.
-/

namespace EtcdOps

/-! ## Constants (etcdops.go, const block) -/

def etcdClientPort : String := ":2379"
def etcdPeerPort : String := ":2380"
def etcdClusterToken : String := "vsphere-shared-etcd-cluster"
def etcdListenURL : String := "0.0.0.0"
def etcdScheme : String := "http://"
def etcdClusterStateNew : String := "new"
def etcdClusterStateExisting : String := "existing"
def etcdPrefixState : String := "SVOLS_stat_"
def etcdPrefixGRef : String := "SVOLS_gref_"
def etcdPrefixInfo : String := "SVOLS_info_"
def VolumeDoesNotExistError : String := "No such volume"
def etcdSingleRef : String := "1"
def etcdNoRef : String := "0"

/-- Modelled from the spec: the volume state constants (volStateReady,
volStateIntermediate, volStateMounted, volStateError) are referenced by
etcdops.go but defined in a file not provided; spec section 3 fixes that
states are compared and stored as the strings Ready, Intermediate,
Mounted, Error. -/
inductive VolState
  | Ready
  | Intermediate
  | Mounted
  | Error
  deriving DecidableEq, Repr

def VolState.str : VolState → String
  | .Ready => "Ready"
  | .Intermediate => "Intermediate"
  | .Mounted => "Mounted"
  | .Error => "Error"

/-! ## Watch events (etcd clientv3 Event, as used by the handler) -/

structure KeyValue where
  key : String
  value : String
  deriving DecidableEq, Repr

inductive EventType
  | Put
  | Delete
  deriving DecidableEq, Repr

structure WatchEvent where
  type : EventType
  kv : KeyValue
  prevKv : Option KeyValue
  deriving DecidableEq, Repr

/-- Go: ev.PrevKv != nil && string(ev.PrevKv.Value) == v. -/
def hasPrevValue (ev : WatchEvent) (v : String) : Bool :=
  match ev.prevKv with
  | some p => p.value == v
  | none => false

/-- Go strings.TrimPrefix, on the character lists underlying the strings:
if pre is a prefix of s, drop it, otherwise return s unchanged. -/
def trimPfx (s pre : String) : String :=
  if pre.data.isPrefixOf s.data then String.mk (s.data.drop pre.data.length) else s

/-- One external call made by the event handler: a CompareAndPut on the
store (with the boolean the store returned), or an SMB server start/stop
(with the boolean the driver returned). -/
inductive Action
  | cas (key oldVal newVal : String) (result : Bool)
  | smbStart (volName : String) (result : Bool)
  | smbStop (volName : String) (result : Bool)
  deriving DecidableEq, Repr

/-- etcdEventHandler (etcdops.go lines 351-426), embedded as the trace of
external calls the handler performs. The results of the external calls are
supplied by the oracles: cas key old new is what e.CompareAndPut returns
for that call (the store is shared and concurrently mutated, so the result
is not a function of any local state), and startSMB / stopSMB are what
driver.startSMBServer / driver.stopSMBServer return. startSMBServer and
stopSMBServer live outside the provided sources; spec section 4.F gives
their contract (synchronous, boolean result), which is all the handler
uses. -/
def etcdEventHandler (cas : String → String → String → Bool)
    (startSMB stopSMB : String → Bool) (ev : WatchEvent) : List Action :=
  if ev.type == EventType.Put then
    if ev.kv.value == etcdSingleRef && hasPrevValue ev etcdNoRef then
      -- watcher observes global refcount from 0 to 1
      let volName := trimPfx ev.kv.key etcdPrefixGRef
      let stateKey := etcdPrefixState ++ volName
      let succeeded := cas stateKey VolState.Ready.str VolState.Intermediate.str
      if !succeeded then
        -- this handler doesn't get the right to start server
        [Action.cas stateKey VolState.Ready.str VolState.Intermediate.str false]
      else
        Action.cas stateKey VolState.Ready.str VolState.Intermediate.str true ::
        if startSMB volName then
          -- SMB server started, set Mounted state
          let c2 := cas stateKey VolState.Intermediate.str VolState.Mounted.str
          Action.smbStart volName true ::
          if c2 == false then
            -- Failed to set state Intermediate->Mounted, set to state Error
            [Action.cas stateKey VolState.Intermediate.str VolState.Mounted.str false,
             Action.cas stateKey VolState.Intermediate.str VolState.Error.str
               (cas stateKey VolState.Intermediate.str VolState.Error.str)]
          else
            [Action.cas stateKey VolState.Intermediate.str VolState.Mounted.str true]
        else
          -- failed to start SMB server, set to state Error
          [Action.smbStart volName false,
           Action.cas stateKey VolState.Intermediate.str VolState.Error.str
             (cas stateKey VolState.Intermediate.str VolState.Error.str)]
    else if ev.kv.value == etcdNoRef && hasPrevValue ev etcdSingleRef then
      -- watcher observes global refcount from 1 to 0
      let volName := trimPfx ev.kv.key etcdPrefixGRef
      let stateKey := etcdPrefixState ++ volName
      let succeeded := cas stateKey VolState.Mounted.str VolState.Intermediate.str
      if !succeeded then
        -- this handler doesn't get the right to stop server
        [Action.cas stateKey VolState.Mounted.str VolState.Intermediate.str false]
      else
        Action.cas stateKey VolState.Mounted.str VolState.Intermediate.str true ::
        if stopSMB volName then
          let c2 := cas stateKey VolState.Intermediate.str VolState.Ready.str
          Action.smbStop volName true ::
          if c2 == false then
            [Action.cas stateKey VolState.Intermediate.str VolState.Ready.str false,
             Action.cas stateKey VolState.Intermediate.str VolState.Error.str
               (cas stateKey VolState.Intermediate.str VolState.Error.str)]
          else
            [Action.cas stateKey VolState.Intermediate.str VolState.Ready.str true]
        else
          [Action.smbStop volName false,
           Action.cas stateKey VolState.Intermediate.str VolState.Error.str
             (cas stateKey VolState.Intermediate.str VolState.Error.str)]
    else []
  else []

/-! ## Metadata API over a store modelled as a partial map

The replicated store is modelled as a function from keys to optional
values; an etcd exact-key Get returns count 0 exactly when the map is none
at that key. The error path of a failed etcd RPC is not modelled: the
claims about these functions concern their behaviour when the store
answers. -/

def Store : Type := String → Option String

/-- etcd OpPut k v applied to the store. -/
def applyPut (s : Store) (k v : String) : Store :=
  fun q => if q = k then some v else s q

/-- etcd OpDelete k applied to the store. -/
def applyDelete (s : Store) (k : String) : Store :=
  fun q => if q = k then none else s q

/-- kvPair (etcdops.go lines 75-78). -/
structure kvPair where
  key : String
  value : String
  deriving DecidableEq, Repr

/-- Outcome of WriteVolMetadata: the transaction branch (more than one
entry), the single-Put branch (exactly one entry), or the Go runtime panic
raised by indexing ops[0] when entries is empty. -/
inductive WriteResult
  | okTxn (s : Store)
  | okPut (s : Store)
  | panicked

/-- WriteVolMetadata (etcdops.go lines 523-553). ops is the list of puts
built from entries; if len(entries) > 1 they are committed as one
transaction, otherwise the code runs Do(ops[0]) - which, when entries is
empty, indexes an empty slice and panics. -/
def WriteVolMetadata (s : Store) (entries : List kvPair) : WriteResult :=
  if entries.length > 1 then
    WriteResult.okTxn (entries.foldl (fun acc e => applyPut acc e.key e.value) s)
  else
    match entries with
    | [] => WriteResult.panicked
    | e :: _ => WriteResult.okPut (applyPut s e.key e.value)

/-- Outcome of ReadVolMetadata: entries returned, the sentinel
VolumeDoesNotExist error, or the panic on partially missing keys. -/
inductive ReadResult
  | ok (entries : List kvPair)
  | err (msg : String)
  | panicked
  deriving DecidableEq, Repr

/-- The loop of ReadVolMetadata (etcdops.go lines 580-592): walk the
responses in key order, appending found pairs to entries and counting
misses. -/
def readLoop (s : Store) (keys : List String) : List kvPair × Nat :=
  keys.foldl
    (fun acc k =>
      match s k with
      | none => (acc.1, acc.2 + 1)
      | some v => (acc.1 ++ [kvPair.mk k v], acc.2))
    ([], 0)

/-- ReadVolMetadata (etcdops.go lines 556-605): reads all keys in one
transaction; if every key missed, returns the VolumeDoesNotExist error; if
some but not all missed, panics; otherwise returns the found entries. -/
def ReadVolMetadata (s : Store) (keys : List String) : ReadResult :=
  let (entries, missedCount) := readLoop s keys
  if missedCount == keys.length then
    ReadResult.err VolumeDoesNotExistError
  else if missedCount > 0 then
    ReadResult.panicked
  else
    ReadResult.ok entries

/-- DeleteVolMetadata (etcdops.go lines 608-633): deletes the three keys
of the volume in one transaction; an OpDelete of an absent key succeeds,
so absent keys do not fail the call. -/
def DeleteVolMetadata (s : Store) (name : String) : Store :=
  applyDelete (applyDelete (applyDelete s (etcdPrefixState ++ name))
    (etcdPrefixGRef ++ name)) (etcdPrefixInfo ++ name)

/-! ## The STATE:V cell under linearized CompareAndPut operations

CompareAndPut (etcdops.go lines 428-444) commits the guarded transaction
If(value(key) = oldVal) Then(Put(key, newVal)) and returns whether the
guard held. All CAS operations of all hosts on one STATE:V key are
linearized by the store; casCell is the effect of one such operation on
the value of that key, and runRace folds an interleaving of operations
over the cell. -/

def casCell (cell oldVal newVal : String) : Bool × String :=
  if cell == oldVal then (true, newVal) else (false, cell)

/-- One linearized CAS on the STATE:V cell during a race: isClaim marks
the claim CAS a host issues on receiving the boundary event (its
Ready-to-Intermediate or Mounted-to-Intermediate transition attempt);
other operations are the winner's follow-up CASes. -/
structure RaceOp where
  isClaim : Bool
  oldVal : String
  newVal : String
  deriving DecidableEq, Repr

/-- Run an interleaving of CAS operations over the cell, recording the
result the store returned for each. -/
def runRace (cell : String) : List RaceOp → List (RaceOp × Bool)
  | [] => []
  | op :: rest =>
    let r := casCell cell op.oldVal op.newVal
    (op, r.1) :: runRace r.2 rest

/-- Number of claim CASes in the interleaving for which the store
returned true. -/
def claimWinCount (cell : String) (ops : List RaceOp) : Nat :=
  ((runRace cell ops).filter (fun p => p.1.isClaim && p.2)).length

/-! ## Client lifecycle of the metadata API calls

Each metadata call manages its etcd client in a fixed straight-line way;
these lists record, in program order, the client-management steps and the
store operations (with the deadline each one carries: some n means a
context with an n second timeout, none means context.TODO, i.e. no
deadline). -/

inductive ClientAction
  | createClient
  | closeClient
  | storeOp (timeoutSeconds : Option Nat)
  deriving DecidableEq, Repr

/-- CompareAndPut (etcdops.go lines 428-444): runs its transaction on the
cached watcher client e.client with context.TODO; it neither creates nor
closes a client. -/
def compareAndPutClientOps : List ClientAction :=
  [ClientAction.storeOp none]

/-- ListVolumeName (etcdops.go lines 496-520): creates a client via
createEtcdClient, issues the range Get under a context with the
requestTimeout (5 s) deadline, and returns without closing the client. -/
def listVolumeNameClientOps : List ClientAction :=
  [ClientAction.createClient, ClientAction.storeOp (some 5)]

/-- WriteVolMetadata (etcdops.go lines 523-553): creates a client, defers
Close, and commits the transaction or the single put with context.TODO. -/
def writeVolMetadataClientOps : List ClientAction :=
  [ClientAction.createClient, ClientAction.storeOp none, ClientAction.closeClient]

/-- ReadVolMetadata (etcdops.go lines 556-605): creates a client, defers
Close, and commits the read transaction with context.TODO. -/
def readVolMetadataClientOps : List ClientAction :=
  [ClientAction.createClient, ClientAction.storeOp none, ClientAction.closeClient]

/-- DeleteVolMetadata (etcdops.go lines 608-633): creates a client, defers
Close, and commits the delete transaction with context.TODO. -/
def deleteVolMetadataClientOps : List ClientAction :=
  [ClientAction.createClient, ClientAction.storeOp none, ClientAction.closeClient]

/-- timeoutOK a states that if a is a store operation then it carries the
default 5 second deadline. -/
def timeoutOK : ClientAction → Prop
  | ClientAction.storeOp t => t = some 5
  | _ => True

instance : DecidablePred timeoutOK := fun a =>
  match a with
  | ClientAction.createClient => isTrue trivial
  | ClientAction.closeClient => isTrue trivial
  | ClientAction.storeOp t => inferInstanceAs (Decidable (t = some 5))

/-- The discipline spec section 4.D asserts of every metadata call: a
fresh client is created at entry, released before return, and every store
operation carries the default 5 second deadline. -/
def freshClientPerCall (tr : List ClientAction) : Prop :=
  tr.head? = some ClientAction.createClient ∧
  tr.getLast? = some ClientAction.closeClient ∧
  ∀ a ∈ tr, timeoutOK a

instance (tr : List ClientAction) : Decidable (freshClientPerCall tr) :=
  inferInstanceAs (Decidable (_ ∧ _ ∧ _))

/-! ## Cluster bootstrap -/

/-- An etcd cluster member as seen through MemberList / MemberAdd
responses. peerURL stands for PeerURLs[0], the only element the code ever
reads. -/
structure Member where
  id : Nat
  name : String
  peerURL : String
  deriving DecidableEq, Repr

/-- A member-management RPC issued against the leader's etcd. -/
inductive MemberAction
  | remove (id : Nat)
  | add (peerURL : String)
  deriving DecidableEq, Repr

/-- What joinEtcdCluster passes to the spawned etcd process and which
member RPCs it issued on the way. -/
structure JoinOutcome where
  actions : List MemberAction
  initialCluster : String
  clusterState : String
  deriving DecidableEq, Repr

/-- The initial-cluster fragment built from a member list: Go appends
member.Name ++ "=" ++ member.PeerURLs[0] ++ "," for every member with a
non-empty Name. -/
def clusterFragment (members : List Member) : String :=
  (members.filter (fun m => m.name != "")).foldl
    (fun acc m => acc ++ m.name ++ "=" ++ m.peerURL ++ ",") ""

/-- joinEtcdCluster (etcdops.go lines 198-300) on its success path,
embedded over the two member lists the leader's etcd returns: lresp is
the MemberList response and aresp the member list inside the MemberAdd
response (consulted only when an add is issued). The Go loop breaks at the
first member whose PeerURLs[0] equals this node's peer address: a member
with an empty Name is a not-yet-started reservation and is kept (existing
= true, no MemberAdd); one with a non-empty Name is removed before the
add. The spawned process always gets cluster-state existing and an
initial-cluster string ending in this node's own name=peerURL entry. -/
def joinEtcdCluster (lresp aresp : List Member) (nodeID nodeAddr : String) :
    JoinOutcome :=
  let peerAddr := etcdScheme ++ nodeAddr ++ etcdPeerPort
  let found := lresp.find? (fun m => m.peerURL == peerAddr)
  let existing : Bool :=
    match found with
    | some m => m.name == ""
    | none => false
  let removeActs : List MemberAction :=
    match found with
    | some m => if m.name == "" then [] else [MemberAction.remove m.id]
    | none => []
  let addActs : List MemberAction :=
    if existing then [] else [MemberAction.add peerAddr]
  let initCluster : String :=
    if existing then clusterFragment lresp else clusterFragment aresp
  { actions := removeActs ++ addActs,
    initialCluster :=
      initCluster ++ nodeID ++ "=" ++ etcdScheme ++ nodeAddr ++ etcdPeerPort,
    clusterState := etcdClusterStateExisting }

/-- Effects performed by checkLocalEtcd when the local etcd comes up:
cache the client handle in e.client, then spawn the watcher goroutine. -/
inductive BootAction
  | cacheClient
  | spawnWatcher
  deriving DecidableEq, Repr

inductive CheckResult
  | started
  | timedOut
  deriving DecidableEq, Repr

/-- checkLocalEtcd (etcdops.go lines 313-338): a ticker fires once per
second and a timer after requestTimeout (5 s); on each tick the code tries
to connect a client to the local etcd, and on the first success caches the
client, spawns the watcher and returns nil; when the timer fires first it
returns the timeout error. ticks is the list of connection-attempt
outcomes delivered before the timer fires (at most five fit in the 5 s
window); exhausting it stands for the timer firing. -/
def checkLocalEtcd : List Bool → CheckResult × List BootAction
  | [] => (CheckResult.timedOut, [])
  | true :: _ => (CheckResult.started, [BootAction.cacheClient, BootAction.spawnWatcher])
  | false :: rest => checkLocalEtcd rest

def bootstrapTimeoutMsg : String := "Timeout reached; etcd cluster is not started"

/-- The swarm role Init reads off the docker client: ControlAvailable
false is a worker; a manager is a leader or not per ManagerStatus. -/
inductive SwarmRole
  | worker
  | leader
  | follower
  deriving DecidableEq, Repr

/-- Init (etcdops.go lines 103-173), embedded over the role, whether the
node list contains a leader (follower path), and the local poll outcomes.
A worker returns nil at once. A leader runs startEtcdCluster, which
returns checkLocalEtcd's result. A follower that finds the leader calls
joinEtcdCluster and DISCARDS its return value (line 166), returning nil
unconditionally; with no leader found it returns an error. The returned
value is the error result paired with the boot actions performed. -/
def Init (role : SwarmRole) (leaderFound : Bool) (ticks : List Bool) :
    Option String × List BootAction :=
  match role with
  | SwarmRole.worker => (none, [])
  | SwarmRole.leader =>
    let r := checkLocalEtcd ticks
    match r.1 with
    | CheckResult.started => (none, r.2)
    | CheckResult.timedOut => (some bootstrapTimeoutMsg, r.2)
  | SwarmRole.follower =>
    if leaderFound then
      let r := checkLocalEtcd ticks
      (none, r.2)
    else
      (some "Failed to get leader for swarm manager", [])

/-! ## Derived event and action descriptions used by the statements -/

/-- A watch event recording a GREF transition from 0 to 1: a Put carrying
value 1 whose previous key-value is present with value 0. -/
def ev01 (gkey prevKey : String) : WatchEvent :=
  { type := EventType.Put,
    kv := { key := gkey, value := etcdSingleRef },
    prevKv := some { key := prevKey, value := etcdNoRef } }

/-- A watch event recording a GREF transition from 1 to 0. -/
def ev10 (gkey prevKey : String) : WatchEvent :=
  { type := EventType.Put,
    kv := { key := gkey, value := etcdNoRef },
    prevKv := some { key := prevKey, value := etcdSingleRef } }

/-- The event filter of the handler: a Put whose value and previous value
form one of the two boundary pairs. -/
def qualifying (ev : WatchEvent) : Bool :=
  (ev.type == EventType.Put) &&
  ((ev.kv.value == etcdSingleRef && hasPrevValue ev etcdNoRef) ||
   (ev.kv.value == etcdNoRef && hasPrevValue ev etcdSingleRef))

/-- The state-machine edges the watcher is allowed to drive: every CAS
action must have a non-Error precondition and be one of
Ready to Intermediate, Mounted to Intermediate, or Intermediate to
Mounted, Ready or Error. -/
def casEdgeOK : Action → Prop
  | Action.cas _ o n _ =>
      o ≠ VolState.Error.str ∧
      ((o = VolState.Ready.str ∧ n = VolState.Intermediate.str) ∨
       (o = VolState.Mounted.str ∧ n = VolState.Intermediate.str) ∨
       (o = VolState.Intermediate.str ∧
         (n = VolState.Mounted.str ∨ n = VolState.Ready.str ∨
          n = VolState.Error.str)))
  | _ => True

/-! ## Helper lemmas: strings and handler traces -/

theorem isPrefixOf_append_self (l m : List Char) : l.isPrefixOf (l ++ m) = true := by
  induction l with
  | nil => simp [List.isPrefixOf]
  | cons a l ih => simp [List.isPrefixOf, ih]

theorem trimPfx_append (pre v : String) : trimPfx (pre ++ v) pre = v := by
  unfold trimPfx
  rw [String.data_append, isPrefixOf_append_self]
  simp [List.drop_left]

theorem h01_lost (cas : String → String → String → Bool)
    (startSMB stopSMB : String → Bool) (gkey prevKey : String)
    (h : cas (etcdPrefixState ++ trimPfx gkey etcdPrefixGRef)
      VolState.Ready.str VolState.Intermediate.str = false) :
    etcdEventHandler cas startSMB stopSMB (ev01 gkey prevKey) =
      [Action.cas (etcdPrefixState ++ trimPfx gkey etcdPrefixGRef)
        VolState.Ready.str VolState.Intermediate.str false] := by
  simp [etcdEventHandler, ev01, hasPrevValue, h]

theorem h01_won_started_ok (cas : String → String → String → Bool)
    (startSMB stopSMB : String → Bool) (gkey prevKey : String)
    (h : cas (etcdPrefixState ++ trimPfx gkey etcdPrefixGRef)
      VolState.Ready.str VolState.Intermediate.str = true)
    (hs : startSMB (trimPfx gkey etcdPrefixGRef) = true)
    (hm : cas (etcdPrefixState ++ trimPfx gkey etcdPrefixGRef)
      VolState.Intermediate.str VolState.Mounted.str = true) :
    etcdEventHandler cas startSMB stopSMB (ev01 gkey prevKey) =
      [Action.cas (etcdPrefixState ++ trimPfx gkey etcdPrefixGRef)
        VolState.Ready.str VolState.Intermediate.str true,
       Action.smbStart (trimPfx gkey etcdPrefixGRef) true,
       Action.cas (etcdPrefixState ++ trimPfx gkey etcdPrefixGRef)
        VolState.Intermediate.str VolState.Mounted.str true] := by
  simp [etcdEventHandler, ev01, hasPrevValue, h, hs, hm]

theorem h01_won_started_casfail (cas : String → String → String → Bool)
    (startSMB stopSMB : String → Bool) (gkey prevKey : String)
    (h : cas (etcdPrefixState ++ trimPfx gkey etcdPrefixGRef)
      VolState.Ready.str VolState.Intermediate.str = true)
    (hs : startSMB (trimPfx gkey etcdPrefixGRef) = true)
    (hm : cas (etcdPrefixState ++ trimPfx gkey etcdPrefixGRef)
      VolState.Intermediate.str VolState.Mounted.str = false) :
    etcdEventHandler cas startSMB stopSMB (ev01 gkey prevKey) =
      [Action.cas (etcdPrefixState ++ trimPfx gkey etcdPrefixGRef)
        VolState.Ready.str VolState.Intermediate.str true,
       Action.smbStart (trimPfx gkey etcdPrefixGRef) true,
       Action.cas (etcdPrefixState ++ trimPfx gkey etcdPrefixGRef)
        VolState.Intermediate.str VolState.Mounted.str false,
       Action.cas (etcdPrefixState ++ trimPfx gkey etcdPrefixGRef)
        VolState.Intermediate.str VolState.Error.str
        (cas (etcdPrefixState ++ trimPfx gkey etcdPrefixGRef)
          VolState.Intermediate.str VolState.Error.str)] := by
  simp [etcdEventHandler, ev01, hasPrevValue, h, hs, hm]

theorem h01_won_startfail (cas : String → String → String → Bool)
    (startSMB stopSMB : String → Bool) (gkey prevKey : String)
    (h : cas (etcdPrefixState ++ trimPfx gkey etcdPrefixGRef)
      VolState.Ready.str VolState.Intermediate.str = true)
    (hs : startSMB (trimPfx gkey etcdPrefixGRef) = false) :
    etcdEventHandler cas startSMB stopSMB (ev01 gkey prevKey) =
      [Action.cas (etcdPrefixState ++ trimPfx gkey etcdPrefixGRef)
        VolState.Ready.str VolState.Intermediate.str true,
       Action.smbStart (trimPfx gkey etcdPrefixGRef) false,
       Action.cas (etcdPrefixState ++ trimPfx gkey etcdPrefixGRef)
        VolState.Intermediate.str VolState.Error.str
        (cas (etcdPrefixState ++ trimPfx gkey etcdPrefixGRef)
          VolState.Intermediate.str VolState.Error.str)] := by
  simp [etcdEventHandler, ev01, hasPrevValue, h, hs]

theorem h10_lost (cas : String → String → String → Bool)
    (startSMB stopSMB : String → Bool) (gkey prevKey : String)
    (h : cas (etcdPrefixState ++ trimPfx gkey etcdPrefixGRef)
      VolState.Mounted.str VolState.Intermediate.str = false) :
    etcdEventHandler cas startSMB stopSMB (ev10 gkey prevKey) =
      [Action.cas (etcdPrefixState ++ trimPfx gkey etcdPrefixGRef)
        VolState.Mounted.str VolState.Intermediate.str false] := by
  simp [etcdEventHandler, ev10, hasPrevValue, h, etcdSingleRef, etcdNoRef]

theorem h10_won_stopped_ok (cas : String → String → String → Bool)
    (startSMB stopSMB : String → Bool) (gkey prevKey : String)
    (h : cas (etcdPrefixState ++ trimPfx gkey etcdPrefixGRef)
      VolState.Mounted.str VolState.Intermediate.str = true)
    (hs : stopSMB (trimPfx gkey etcdPrefixGRef) = true)
    (hm : cas (etcdPrefixState ++ trimPfx gkey etcdPrefixGRef)
      VolState.Intermediate.str VolState.Ready.str = true) :
    etcdEventHandler cas startSMB stopSMB (ev10 gkey prevKey) =
      [Action.cas (etcdPrefixState ++ trimPfx gkey etcdPrefixGRef)
        VolState.Mounted.str VolState.Intermediate.str true,
       Action.smbStop (trimPfx gkey etcdPrefixGRef) true,
       Action.cas (etcdPrefixState ++ trimPfx gkey etcdPrefixGRef)
        VolState.Intermediate.str VolState.Ready.str true] := by
  simp [etcdEventHandler, ev10, hasPrevValue, h, hs, hm, etcdSingleRef, etcdNoRef]

theorem h10_won_stopped_casfail (cas : String → String → String → Bool)
    (startSMB stopSMB : String → Bool) (gkey prevKey : String)
    (h : cas (etcdPrefixState ++ trimPfx gkey etcdPrefixGRef)
      VolState.Mounted.str VolState.Intermediate.str = true)
    (hs : stopSMB (trimPfx gkey etcdPrefixGRef) = true)
    (hm : cas (etcdPrefixState ++ trimPfx gkey etcdPrefixGRef)
      VolState.Intermediate.str VolState.Ready.str = false) :
    etcdEventHandler cas startSMB stopSMB (ev10 gkey prevKey) =
      [Action.cas (etcdPrefixState ++ trimPfx gkey etcdPrefixGRef)
        VolState.Mounted.str VolState.Intermediate.str true,
       Action.smbStop (trimPfx gkey etcdPrefixGRef) true,
       Action.cas (etcdPrefixState ++ trimPfx gkey etcdPrefixGRef)
        VolState.Intermediate.str VolState.Ready.str false,
       Action.cas (etcdPrefixState ++ trimPfx gkey etcdPrefixGRef)
        VolState.Intermediate.str VolState.Error.str
        (cas (etcdPrefixState ++ trimPfx gkey etcdPrefixGRef)
          VolState.Intermediate.str VolState.Error.str)] := by
  simp [etcdEventHandler, ev10, hasPrevValue, h, hs, hm, etcdSingleRef, etcdNoRef]

theorem h10_won_stopfail (cas : String → String → String → Bool)
    (startSMB stopSMB : String → Bool) (gkey prevKey : String)
    (h : cas (etcdPrefixState ++ trimPfx gkey etcdPrefixGRef)
      VolState.Mounted.str VolState.Intermediate.str = true)
    (hs : stopSMB (trimPfx gkey etcdPrefixGRef) = false) :
    etcdEventHandler cas startSMB stopSMB (ev10 gkey prevKey) =
      [Action.cas (etcdPrefixState ++ trimPfx gkey etcdPrefixGRef)
        VolState.Mounted.str VolState.Intermediate.str true,
       Action.smbStop (trimPfx gkey etcdPrefixGRef) false,
       Action.cas (etcdPrefixState ++ trimPfx gkey etcdPrefixGRef)
        VolState.Intermediate.str VolState.Error.str
        (cas (etcdPrefixState ++ trimPfx gkey etcdPrefixGRef)
          VolState.Intermediate.str VolState.Error.str)] := by
  simp [etcdEventHandler, ev10, hasPrevValue, h, hs, etcdSingleRef, etcdNoRef]

theorem handler_not_qualifying (cas : String → String → String → Bool)
    (startSMB stopSMB : String → Bool) (ev : WatchEvent)
    (h : qualifying ev = false) :
    etcdEventHandler cas startSMB stopSMB ev = [] := by
  cases ht : (ev.type == EventType.Put) with
  | false => simp [etcdEventHandler, ht]
  | true =>
    cases h1 : (ev.kv.value == etcdSingleRef && hasPrevValue ev etcdNoRef) with
    | true => exfalso; simp [qualifying, ht, h1] at h
    | false =>
      cases h2 : (ev.kv.value == etcdNoRef && hasPrevValue ev etcdSingleRef) with
      | true => exfalso; simp [qualifying, ht, h1, h2] at h
      | false => simp [etcdEventHandler, ht, h1, h2]

theorem qualifying_cases (ev : WatchEvent) (h : qualifying ev = true) :
    (∃ g p, ev = ev01 g p) ∨ (∃ g p, ev = ev10 g p) := by
  obtain ⟨t, ⟨k, v⟩, pkv⟩ := ev
  cases pkv with
  | none => simp [qualifying, hasPrevValue] at h
  | some pk =>
    obtain ⟨pkk, pkv⟩ := pk
    simp [qualifying, hasPrevValue] at h
    obtain ⟨ht, hv⟩ := h
    rcases hv with ⟨hv1, hp0⟩ | ⟨hv0, hp1⟩
    · exact Or.inl ⟨k, pkk, by simp [ev01, ht, hv1, hp0]⟩
    · exact Or.inr ⟨k, pkk, by simp [ev10, ht, hv0, hp1]⟩

theorem claimWinCount_cons (cell : String) (op : RaceOp) (rest : List RaceOp) :
    claimWinCount cell (op :: rest) =
      (if (op.isClaim && (casCell cell op.oldVal op.newVal).1) = true then 1 else 0) +
      claimWinCount (casCell cell op.oldVal op.newVal).2 rest := by
  cases hb : (op.isClaim && (casCell cell op.oldVal op.newVal).1) with
  | true =>
    simp only [claimWinCount, runRace, List.filter_cons, hb, if_pos, List.length_cons]
    omega
  | false =>
    simp only [claimWinCount, runRace, List.filter_cons, hb]
    simp

theorem race_no_win (claimOld : String) (ops : List RaceOp) :
    ∀ cell, cell ≠ claimOld →
    (∀ op ∈ ops, op.isClaim = true → op.oldVal = claimOld) →
    (∀ op ∈ ops, op.newVal ≠ claimOld) →
    claimWinCount cell ops = 0 := by
  induction ops with
  | nil => intro cell _ _ _; rfl
  | cons op rest ih =>
    intro cell hc hclaim hnew
    rw [claimWinCount_cons]
    have hrest : claimWinCount (casCell cell op.oldVal op.newVal).2 rest = 0 := by
      apply ih
      · unfold casCell
        split
        · simpa using hnew op (List.mem_cons_self op rest)
        · simpa using hc
      · intro q hq hqc; exact hclaim q (List.mem_cons_of_mem op hq) hqc
      · intro q hq; exact hnew q (List.mem_cons_of_mem op hq)
    rw [hrest]
    have hfail : (op.isClaim && (casCell cell op.oldVal op.newVal).1) = false := by
      cases hic : op.isClaim with
      | false => simp
      | true =>
        have ho := hclaim op (List.mem_cons_self op rest) hic
        have : (casCell cell op.oldVal op.newVal).1 = false := by
          unfold casCell
          split
          · rename_i hcc
            exact absurd (by simpa [ho] using hcc) hc
          · rfl
        simp [this]
    rw [hfail]
    simp

theorem race_one_win (claimOld claimNew : String) (hne : claimNew ≠ claimOld)
    (ops : List RaceOp)
    (hclaim : ∀ op ∈ ops, op.isClaim = true → op.oldVal = claimOld ∧ op.newVal = claimNew)
    (hfollow : ∀ op ∈ ops, op.isClaim = false → op.oldVal ≠ claimOld ∧ op.newVal ≠ claimOld)
    (hsome : ∃ op ∈ ops, op.isClaim = true) :
    claimWinCount claimOld ops = 1 := by
  induction ops with
  | nil => obtain ⟨op, hop, _⟩ := hsome; exact absurd hop (List.not_mem_nil op)
  | cons op rest ih =>
    rw [claimWinCount_cons]
    cases hic : op.isClaim with
    | true =>
      obtain ⟨ho, hn⟩ := hclaim op (List.mem_cons_self op rest) hic
      have hcc : casCell claimOld op.oldVal op.newVal = (true, claimNew) := by
        simp [casCell, ho, hn]
      rw [hcc]
      have hz : claimWinCount claimNew rest = 0 := by
        apply race_no_win claimOld rest claimNew hne
        · intro q hq hqc; exact (hclaim q (List.mem_cons_of_mem op hq) hqc).1
        · intro q hq
          cases hqc : q.isClaim with
          | true =>
            rw [(hclaim q (List.mem_cons_of_mem op hq) hqc).2]; exact hne
          | false =>
            exact (hfollow q (List.mem_cons_of_mem op hq) hqc).2
      rw [hz]
      simp [hic]
    | false =>
      obtain ⟨ho, _⟩ := hfollow op (List.mem_cons_self op rest) hic
      have hcc : casCell claimOld op.oldVal op.newVal = (false, claimOld) := by
        have : (claimOld == op.oldVal) = false := by
          simpa using fun hq => ho hq.symm
        simp [casCell, this]
      rw [hcc]
      have hs : ∃ q ∈ rest, q.isClaim = true := by
        obtain ⟨q, hq, hqc⟩ := hsome
        rcases List.mem_cons.mp hq with rfl | hq'
        · rw [hic] at hqc; exact absurd hqc (by simp)
        · exact ⟨q, hq', hqc⟩
      have := ih (fun q hq => hclaim q (List.mem_cons_of_mem op hq))
        (fun q hq => hfollow q (List.mem_cons_of_mem op hq)) hs
      rw [this]
      simp [hic]

/-! ## Claim theorems -/

/-- The four traces of the handler for a 0 to 1 event on volume V, one
lemma per combination of external results. -/
theorem tr01_lost (cas : String → String → String → Bool)
    (startSMB stopSMB : String → Bool) (V prevKey : String)
    (h : cas (etcdPrefixState ++ V) VolState.Ready.str VolState.Intermediate.str = false) :
    etcdEventHandler cas startSMB stopSMB (ev01 (etcdPrefixGRef ++ V) prevKey) =
      [Action.cas (etcdPrefixState ++ V) VolState.Ready.str
        VolState.Intermediate.str false] := by
  have hv : trimPfx (etcdPrefixGRef ++ V) etcdPrefixGRef = V :=
    trimPfx_append etcdPrefixGRef V
  have := h01_lost cas startSMB stopSMB (etcdPrefixGRef ++ V) prevKey (by rwa [hv])
  rwa [hv] at this

theorem tr01_ok (cas : String → String → String → Bool)
    (startSMB stopSMB : String → Bool) (V prevKey : String)
    (h : cas (etcdPrefixState ++ V) VolState.Ready.str VolState.Intermediate.str = true)
    (hs : startSMB V = true)
    (hm : cas (etcdPrefixState ++ V) VolState.Intermediate.str VolState.Mounted.str = true) :
    etcdEventHandler cas startSMB stopSMB (ev01 (etcdPrefixGRef ++ V) prevKey) =
      [Action.cas (etcdPrefixState ++ V) VolState.Ready.str
        VolState.Intermediate.str true,
       Action.smbStart V true,
       Action.cas (etcdPrefixState ++ V) VolState.Intermediate.str
        VolState.Mounted.str true] := by
  have hv : trimPfx (etcdPrefixGRef ++ V) etcdPrefixGRef = V :=
    trimPfx_append etcdPrefixGRef V
  have := h01_won_started_ok cas startSMB stopSMB (etcdPrefixGRef ++ V) prevKey
    (by rwa [hv]) (by rwa [hv]) (by rwa [hv])
  rwa [hv] at this

theorem tr01_casfail (cas : String → String → String → Bool)
    (startSMB stopSMB : String → Bool) (V prevKey : String)
    (h : cas (etcdPrefixState ++ V) VolState.Ready.str VolState.Intermediate.str = true)
    (hs : startSMB V = true)
    (hm : cas (etcdPrefixState ++ V) VolState.Intermediate.str VolState.Mounted.str = false) :
    etcdEventHandler cas startSMB stopSMB (ev01 (etcdPrefixGRef ++ V) prevKey) =
      [Action.cas (etcdPrefixState ++ V) VolState.Ready.str
        VolState.Intermediate.str true,
       Action.smbStart V true,
       Action.cas (etcdPrefixState ++ V) VolState.Intermediate.str
        VolState.Mounted.str false,
       Action.cas (etcdPrefixState ++ V) VolState.Intermediate.str
        VolState.Error.str
        (cas (etcdPrefixState ++ V) VolState.Intermediate.str VolState.Error.str)] := by
  have hv : trimPfx (etcdPrefixGRef ++ V) etcdPrefixGRef = V :=
    trimPfx_append etcdPrefixGRef V
  have := h01_won_started_casfail cas startSMB stopSMB (etcdPrefixGRef ++ V) prevKey
    (by rwa [hv]) (by rwa [hv]) (by rwa [hv])
  rwa [hv] at this

theorem tr01_startfail (cas : String → String → String → Bool)
    (startSMB stopSMB : String → Bool) (V prevKey : String)
    (h : cas (etcdPrefixState ++ V) VolState.Ready.str VolState.Intermediate.str = true)
    (hs : startSMB V = false) :
    etcdEventHandler cas startSMB stopSMB (ev01 (etcdPrefixGRef ++ V) prevKey) =
      [Action.cas (etcdPrefixState ++ V) VolState.Ready.str
        VolState.Intermediate.str true,
       Action.smbStart V false,
       Action.cas (etcdPrefixState ++ V) VolState.Intermediate.str
        VolState.Error.str
        (cas (etcdPrefixState ++ V) VolState.Intermediate.str VolState.Error.str)] := by
  have hv : trimPfx (etcdPrefixGRef ++ V) etcdPrefixGRef = V :=
    trimPfx_append etcdPrefixGRef V
  have := h01_won_startfail cas startSMB stopSMB (etcdPrefixGRef ++ V) prevKey
    (by rwa [hv]) (by rwa [hv])
  rwa [hv] at this

/-- The four traces of the handler for a 1 to 0 event on volume V. -/
theorem tr10_lost (cas : String → String → String → Bool)
    (startSMB stopSMB : String → Bool) (V prevKey : String)
    (h : cas (etcdPrefixState ++ V) VolState.Mounted.str VolState.Intermediate.str = false) :
    etcdEventHandler cas startSMB stopSMB (ev10 (etcdPrefixGRef ++ V) prevKey) =
      [Action.cas (etcdPrefixState ++ V) VolState.Mounted.str
        VolState.Intermediate.str false] := by
  have hv : trimPfx (etcdPrefixGRef ++ V) etcdPrefixGRef = V :=
    trimPfx_append etcdPrefixGRef V
  have := h10_lost cas startSMB stopSMB (etcdPrefixGRef ++ V) prevKey (by rwa [hv])
  rwa [hv] at this

theorem tr10_ok (cas : String → String → String → Bool)
    (startSMB stopSMB : String → Bool) (V prevKey : String)
    (h : cas (etcdPrefixState ++ V) VolState.Mounted.str VolState.Intermediate.str = true)
    (hs : stopSMB V = true)
    (hm : cas (etcdPrefixState ++ V) VolState.Intermediate.str VolState.Ready.str = true) :
    etcdEventHandler cas startSMB stopSMB (ev10 (etcdPrefixGRef ++ V) prevKey) =
      [Action.cas (etcdPrefixState ++ V) VolState.Mounted.str
        VolState.Intermediate.str true,
       Action.smbStop V true,
       Action.cas (etcdPrefixState ++ V) VolState.Intermediate.str
        VolState.Ready.str true] := by
  have hv : trimPfx (etcdPrefixGRef ++ V) etcdPrefixGRef = V :=
    trimPfx_append etcdPrefixGRef V
  have := h10_won_stopped_ok cas startSMB stopSMB (etcdPrefixGRef ++ V) prevKey
    (by rwa [hv]) (by rwa [hv]) (by rwa [hv])
  rwa [hv] at this

theorem tr10_casfail (cas : String → String → String → Bool)
    (startSMB stopSMB : String → Bool) (V prevKey : String)
    (h : cas (etcdPrefixState ++ V) VolState.Mounted.str VolState.Intermediate.str = true)
    (hs : stopSMB V = true)
    (hm : cas (etcdPrefixState ++ V) VolState.Intermediate.str VolState.Ready.str = false) :
    etcdEventHandler cas startSMB stopSMB (ev10 (etcdPrefixGRef ++ V) prevKey) =
      [Action.cas (etcdPrefixState ++ V) VolState.Mounted.str
        VolState.Intermediate.str true,
       Action.smbStop V true,
       Action.cas (etcdPrefixState ++ V) VolState.Intermediate.str
        VolState.Ready.str false,
       Action.cas (etcdPrefixState ++ V) VolState.Intermediate.str
        VolState.Error.str
        (cas (etcdPrefixState ++ V) VolState.Intermediate.str VolState.Error.str)] := by
  have hv : trimPfx (etcdPrefixGRef ++ V) etcdPrefixGRef = V :=
    trimPfx_append etcdPrefixGRef V
  have := h10_won_stopped_casfail cas startSMB stopSMB (etcdPrefixGRef ++ V) prevKey
    (by rwa [hv]) (by rwa [hv]) (by rwa [hv])
  rwa [hv] at this

theorem tr10_stopfail (cas : String → String → String → Bool)
    (startSMB stopSMB : String → Bool) (V prevKey : String)
    (h : cas (etcdPrefixState ++ V) VolState.Mounted.str VolState.Intermediate.str = true)
    (hs : stopSMB V = false) :
    etcdEventHandler cas startSMB stopSMB (ev10 (etcdPrefixGRef ++ V) prevKey) =
      [Action.cas (etcdPrefixState ++ V) VolState.Mounted.str
        VolState.Intermediate.str true,
       Action.smbStop V false,
       Action.cas (etcdPrefixState ++ V) VolState.Intermediate.str
        VolState.Error.str
        (cas (etcdPrefixState ++ V) VolState.Intermediate.str VolState.Error.str)] := by
  have hv : trimPfx (etcdPrefixGRef ++ V) etcdPrefixGRef = V :=
    trimPfx_append etcdPrefixGRef V
  have := h10_won_stopfail cas startSMB stopSMB (etcdPrefixGRef ++ V) prevKey
    (by rwa [hv]) (by rwa [hv])
  rwa [hv] at this

/-- C1: for every watcher event recording a GREF:V transition from 0 to 1,
the handler first executes CompareAndPut(STATE:V, Ready, Intermediate); if
that CAS returns false the handler returns having performed no SMB call
and no further state write; if it returns true the handler calls SMB Start
for V, and then on Start success executes CompareAndPut(STATE:V,
Intermediate, Mounted), falling back to CompareAndPut(STATE:V,
Intermediate, Error) if that CAS fails, while on Start failure it executes
CompareAndPut(STATE:V, Intermediate, Error). Each case is stated as the
full trace of external calls, so the losing case visibly contains no SMB
call and no further state write. -/
theorem C1_transition_0_to_1 (cas : String → String → String → Bool)
    (startSMB stopSMB : String → Bool) (V prevKey : String) :
    (cas (etcdPrefixState ++ V) VolState.Ready.str VolState.Intermediate.str = false →
      etcdEventHandler cas startSMB stopSMB (ev01 (etcdPrefixGRef ++ V) prevKey) =
        [Action.cas (etcdPrefixState ++ V) VolState.Ready.str
          VolState.Intermediate.str false]) ∧
    (cas (etcdPrefixState ++ V) VolState.Ready.str VolState.Intermediate.str = true →
      startSMB V = true →
      cas (etcdPrefixState ++ V) VolState.Intermediate.str VolState.Mounted.str = true →
      etcdEventHandler cas startSMB stopSMB (ev01 (etcdPrefixGRef ++ V) prevKey) =
        [Action.cas (etcdPrefixState ++ V) VolState.Ready.str
          VolState.Intermediate.str true,
         Action.smbStart V true,
         Action.cas (etcdPrefixState ++ V) VolState.Intermediate.str
          VolState.Mounted.str true]) ∧
    (cas (etcdPrefixState ++ V) VolState.Ready.str VolState.Intermediate.str = true →
      startSMB V = true →
      cas (etcdPrefixState ++ V) VolState.Intermediate.str VolState.Mounted.str = false →
      etcdEventHandler cas startSMB stopSMB (ev01 (etcdPrefixGRef ++ V) prevKey) =
        [Action.cas (etcdPrefixState ++ V) VolState.Ready.str
          VolState.Intermediate.str true,
         Action.smbStart V true,
         Action.cas (etcdPrefixState ++ V) VolState.Intermediate.str
          VolState.Mounted.str false,
         Action.cas (etcdPrefixState ++ V) VolState.Intermediate.str
          VolState.Error.str
          (cas (etcdPrefixState ++ V) VolState.Intermediate.str VolState.Error.str)]) ∧
    (cas (etcdPrefixState ++ V) VolState.Ready.str VolState.Intermediate.str = true →
      startSMB V = false →
      etcdEventHandler cas startSMB stopSMB (ev01 (etcdPrefixGRef ++ V) prevKey) =
        [Action.cas (etcdPrefixState ++ V) VolState.Ready.str
          VolState.Intermediate.str true,
         Action.smbStart V false,
         Action.cas (etcdPrefixState ++ V) VolState.Intermediate.str
          VolState.Error.str
          (cas (etcdPrefixState ++ V) VolState.Intermediate.str VolState.Error.str)]) := by
  exact ⟨fun h => tr01_lost cas startSMB stopSMB V prevKey h,
         fun h hs hm => tr01_ok cas startSMB stopSMB V prevKey h hs hm,
         fun h hs hm => tr01_casfail cas startSMB stopSMB V prevKey h hs hm,
         fun h hs => tr01_startfail cas startSMB stopSMB V prevKey h hs⟩

/-- Witness for C1 at a concrete input: both CASes and SMB Start succeed
for volume vol1, and the trace is claim, start, mount. -/
theorem C1_transition_0_to_1_witness :
    etcdEventHandler (fun _ _ _ => true) (fun _ => true) (fun _ => true)
      (ev01 (etcdPrefixGRef ++ "vol1") "pk") =
      [Action.cas (etcdPrefixState ++ "vol1") VolState.Ready.str
        VolState.Intermediate.str true,
       Action.smbStart "vol1" true,
       Action.cas (etcdPrefixState ++ "vol1") VolState.Intermediate.str
        VolState.Mounted.str true] :=
  (C1_transition_0_to_1 (fun _ _ _ => true) (fun _ => true) (fun _ => true)
    "vol1" "pk").2.1 rfl rfl rfl

/-- C2: for every watcher event recording a GREF:V transition from 1 to 0,
the handler first executes CompareAndPut(STATE:V, Mounted, Intermediate);
if that CAS returns false the handler returns with no side effect; if it
returns true the handler calls SMB Stop for V, and then on Stop success
executes CompareAndPut(STATE:V, Intermediate, Ready), falling back to
CompareAndPut(STATE:V, Intermediate, Error) if that CAS fails, while on
Stop failure it executes CompareAndPut(STATE:V, Intermediate, Error). -/
theorem C2_transition_1_to_0 (cas : String → String → String → Bool)
    (startSMB stopSMB : String → Bool) (V prevKey : String) :
    (cas (etcdPrefixState ++ V) VolState.Mounted.str VolState.Intermediate.str = false →
      etcdEventHandler cas startSMB stopSMB (ev10 (etcdPrefixGRef ++ V) prevKey) =
        [Action.cas (etcdPrefixState ++ V) VolState.Mounted.str
          VolState.Intermediate.str false]) ∧
    (cas (etcdPrefixState ++ V) VolState.Mounted.str VolState.Intermediate.str = true →
      stopSMB V = true →
      cas (etcdPrefixState ++ V) VolState.Intermediate.str VolState.Ready.str = true →
      etcdEventHandler cas startSMB stopSMB (ev10 (etcdPrefixGRef ++ V) prevKey) =
        [Action.cas (etcdPrefixState ++ V) VolState.Mounted.str
          VolState.Intermediate.str true,
         Action.smbStop V true,
         Action.cas (etcdPrefixState ++ V) VolState.Intermediate.str
          VolState.Ready.str true]) ∧
    (cas (etcdPrefixState ++ V) VolState.Mounted.str VolState.Intermediate.str = true →
      stopSMB V = true →
      cas (etcdPrefixState ++ V) VolState.Intermediate.str VolState.Ready.str = false →
      etcdEventHandler cas startSMB stopSMB (ev10 (etcdPrefixGRef ++ V) prevKey) =
        [Action.cas (etcdPrefixState ++ V) VolState.Mounted.str
          VolState.Intermediate.str true,
         Action.smbStop V true,
         Action.cas (etcdPrefixState ++ V) VolState.Intermediate.str
          VolState.Ready.str false,
         Action.cas (etcdPrefixState ++ V) VolState.Intermediate.str
          VolState.Error.str
          (cas (etcdPrefixState ++ V) VolState.Intermediate.str VolState.Error.str)]) ∧
    (cas (etcdPrefixState ++ V) VolState.Mounted.str VolState.Intermediate.str = true →
      stopSMB V = false →
      etcdEventHandler cas startSMB stopSMB (ev10 (etcdPrefixGRef ++ V) prevKey) =
        [Action.cas (etcdPrefixState ++ V) VolState.Mounted.str
          VolState.Intermediate.str true,
         Action.smbStop V false,
         Action.cas (etcdPrefixState ++ V) VolState.Intermediate.str
          VolState.Error.str
          (cas (etcdPrefixState ++ V) VolState.Intermediate.str VolState.Error.str)]) := by
  exact ⟨fun h => tr10_lost cas startSMB stopSMB V prevKey h,
         fun h hs hm => tr10_ok cas startSMB stopSMB V prevKey h hs hm,
         fun h hs hm => tr10_casfail cas startSMB stopSMB V prevKey h hs hm,
         fun h hs => tr10_stopfail cas startSMB stopSMB V prevKey h hs⟩

/-- Witness for C2 at a concrete input: the claim CAS fails for volume
vol1, and the trace is the single losing CAS. -/
theorem C2_transition_1_to_0_witness :
    etcdEventHandler (fun _ _ _ => false) (fun _ => true) (fun _ => true)
      (ev10 (etcdPrefixGRef ++ "vol1") "pk") =
      [Action.cas (etcdPrefixState ++ "vol1") VolState.Mounted.str
        VolState.Intermediate.str false] :=
  (C2_transition_1_to_0 (fun _ _ _ => false) (fun _ => true) (fun _ => true)
    "vol1" "pk").1 rfl

theorem handler_edges_ev01 (cas : String → String → String → Bool)
    (startSMB stopSMB : String → Bool) (g p : String) :
    ∀ a ∈ etcdEventHandler cas startSMB stopSMB (ev01 g p), casEdgeOK a := by
  intro a ha
  cases h : cas (etcdPrefixState ++ trimPfx g etcdPrefixGRef)
      VolState.Ready.str VolState.Intermediate.str with
  | false =>
    rw [h01_lost cas startSMB stopSMB g p h] at ha
    simp only [List.mem_singleton] at ha
    subst ha
    simp [casEdgeOK, VolState.str]
  | true =>
    cases hs : startSMB (trimPfx g etcdPrefixGRef) with
    | true =>
      cases hm : cas (etcdPrefixState ++ trimPfx g etcdPrefixGRef)
          VolState.Intermediate.str VolState.Mounted.str with
      | true =>
        rw [h01_won_started_ok cas startSMB stopSMB g p h hs hm] at ha
        simp only [List.mem_cons, List.not_mem_nil, or_false] at ha
        rcases ha with rfl | rfl | rfl <;> simp [casEdgeOK, VolState.str]
      | false =>
        rw [h01_won_started_casfail cas startSMB stopSMB g p h hs hm] at ha
        simp only [List.mem_cons, List.not_mem_nil, or_false] at ha
        rcases ha with rfl | rfl | rfl | rfl <;> simp [casEdgeOK, VolState.str]
    | false =>
      rw [h01_won_startfail cas startSMB stopSMB g p h hs] at ha
      simp only [List.mem_cons, List.not_mem_nil, or_false] at ha
      rcases ha with rfl | rfl | rfl <;> simp [casEdgeOK, VolState.str]

theorem handler_edges_ev10 (cas : String → String → String → Bool)
    (startSMB stopSMB : String → Bool) (g p : String) :
    ∀ a ∈ etcdEventHandler cas startSMB stopSMB (ev10 g p), casEdgeOK a := by
  intro a ha
  cases h : cas (etcdPrefixState ++ trimPfx g etcdPrefixGRef)
      VolState.Mounted.str VolState.Intermediate.str with
  | false =>
    rw [h10_lost cas startSMB stopSMB g p h] at ha
    simp only [List.mem_singleton] at ha
    subst ha
    simp [casEdgeOK, VolState.str]
  | true =>
    cases hs : stopSMB (trimPfx g etcdPrefixGRef) with
    | true =>
      cases hm : cas (etcdPrefixState ++ trimPfx g etcdPrefixGRef)
          VolState.Intermediate.str VolState.Ready.str with
      | true =>
        rw [h10_won_stopped_ok cas startSMB stopSMB g p h hs hm] at ha
        simp only [List.mem_cons, List.not_mem_nil, or_false] at ha
        rcases ha with rfl | rfl | rfl <;> simp [casEdgeOK, VolState.str]
      | false =>
        rw [h10_won_stopped_casfail cas startSMB stopSMB g p h hs hm] at ha
        simp only [List.mem_cons, List.not_mem_nil, or_false] at ha
        rcases ha with rfl | rfl | rfl | rfl <;> simp [casEdgeOK, VolState.str]
    | false =>
      rw [h10_won_stopfail cas startSMB stopSMB g p h hs] at ha
      simp only [List.mem_cons, List.not_mem_nil, or_false] at ha
      rcases ha with rfl | rfl | rfl <;> simp [casEdgeOK, VolState.str]

theorem casCell_error_sink (o n : String) (ho : o ≠ VolState.Error.str) :
    casCell VolState.Error.str o n = (false, VolState.Error.str) := by
  have hb : (VolState.Error.str == o) = false := by
    simpa using fun h => ho h.symm
  simp [casCell, hb]

/-- C3: an event that is not a Put forming one of the two boundary pairs
(0 to 1 or 1 to 0, with the previous value present) produces no state CAS
and no SMB call; every state write the handler ever performs is a CAS
whose precondition state is Ready, Mounted or Intermediate - never Error -
along the edges Ready to Intermediate, Mounted to Intermediate, and
Intermediate to Mounted, Ready or Error; consequently a STATE cell holding
Error is left unchanged (and the CAS reports failure) by every CAS the
handler performs. -/
theorem C3_event_filter_and_error_sink (cas : String → String → String → Bool)
    (startSMB stopSMB : String → Bool) (ev : WatchEvent) :
    (qualifying ev = false → etcdEventHandler cas startSMB stopSMB ev = []) ∧
    (∀ a ∈ etcdEventHandler cas startSMB stopSMB ev, casEdgeOK a) ∧
    (∀ k o n r, Action.cas k o n r ∈ etcdEventHandler cas startSMB stopSMB ev →
      casCell VolState.Error.str o n = (false, VolState.Error.str)) := by
  have hedges : ∀ a ∈ etcdEventHandler cas startSMB stopSMB ev, casEdgeOK a := by
    cases hq : qualifying ev with
    | false => rw [handler_not_qualifying cas startSMB stopSMB ev hq]; simp
    | true =>
      rcases qualifying_cases ev hq with ⟨g, p, rfl⟩ | ⟨g, p, rfl⟩
      · exact handler_edges_ev01 cas startSMB stopSMB g p
      · exact handler_edges_ev10 cas startSMB stopSMB g p
  refine ⟨handler_not_qualifying cas startSMB stopSMB ev, hedges, ?_⟩
  intro k o n r hmem
  exact casCell_error_sink o n (hedges _ hmem).1

/-- Witness for C3 at a concrete input: a Delete event is not acted on. -/
theorem C3_event_filter_witness :
    etcdEventHandler (fun _ _ _ => true) (fun _ => true) (fun _ => true)
      { type := EventType.Delete,
        kv := { key := "SVOLS_gref_v", value := "0" }, prevKv := none } = [] :=
  (C3_event_filter_and_error_sink (fun _ _ _ => true) (fun _ => true) (fun _ => true)
    { type := EventType.Delete,
      kv := { key := "SVOLS_gref_v", value := "0" }, prevKv := none }).1 (by decide)

/-- C4: a host whose claim CAS (Ready to Intermediate for a 0 to 1 event,
Mounted to Intermediate for a 1 to 0 event) returns false performs no SMB
call at all, and a host whose claim CAS returns true performs the
corresponding SMB call; and in any linearization of the claim CASes of any
number of hosts with the winner's follow-up CASes on a STATE cell that
starts at the claimed precondition, the store answers true to exactly one
claim - so exactly one host performs the side effect. -/
theorem C4_exactly_one_side_effect (cas : String → String → String → Bool)
    (startSMB stopSMB : String → Bool) (V prevKey : String) :
    (cas (etcdPrefixState ++ V) VolState.Ready.str VolState.Intermediate.str = false →
      ∀ w r, Action.smbStart w r ∉
          etcdEventHandler cas startSMB stopSMB (ev01 (etcdPrefixGRef ++ V) prevKey) ∧
        Action.smbStop w r ∉
          etcdEventHandler cas startSMB stopSMB (ev01 (etcdPrefixGRef ++ V) prevKey)) ∧
    (cas (etcdPrefixState ++ V) VolState.Ready.str VolState.Intermediate.str = true →
      Action.smbStart V (startSMB V) ∈
        etcdEventHandler cas startSMB stopSMB (ev01 (etcdPrefixGRef ++ V) prevKey)) ∧
    (cas (etcdPrefixState ++ V) VolState.Mounted.str VolState.Intermediate.str = false →
      ∀ w r, Action.smbStart w r ∉
          etcdEventHandler cas startSMB stopSMB (ev10 (etcdPrefixGRef ++ V) prevKey) ∧
        Action.smbStop w r ∉
          etcdEventHandler cas startSMB stopSMB (ev10 (etcdPrefixGRef ++ V) prevKey)) ∧
    (cas (etcdPrefixState ++ V) VolState.Mounted.str VolState.Intermediate.str = true →
      Action.smbStop V (stopSMB V) ∈
        etcdEventHandler cas startSMB stopSMB (ev10 (etcdPrefixGRef ++ V) prevKey)) ∧
    (∀ ops : List RaceOp,
      (∀ op ∈ ops, op.isClaim = true →
        op.oldVal = VolState.Ready.str ∧ op.newVal = VolState.Intermediate.str) →
      (∀ op ∈ ops, op.isClaim = false →
        op.oldVal = VolState.Intermediate.str ∧
        (op.newVal = VolState.Mounted.str ∨ op.newVal = VolState.Error.str)) →
      (∃ op ∈ ops, op.isClaim = true) →
      claimWinCount VolState.Ready.str ops = 1) ∧
    (∀ ops : List RaceOp,
      (∀ op ∈ ops, op.isClaim = true →
        op.oldVal = VolState.Mounted.str ∧ op.newVal = VolState.Intermediate.str) →
      (∀ op ∈ ops, op.isClaim = false →
        op.oldVal = VolState.Intermediate.str ∧
        (op.newVal = VolState.Ready.str ∨ op.newVal = VolState.Error.str)) →
      (∃ op ∈ ops, op.isClaim = true) →
      claimWinCount VolState.Mounted.str ops = 1) := by
  have hv : trimPfx (etcdPrefixGRef ++ V) etcdPrefixGRef = V :=
    trimPfx_append etcdPrefixGRef V
  refine ⟨?_, ?_, ?_, ?_, ?_, ?_⟩
  · intro h w r
    rw [tr01_lost cas startSMB stopSMB V prevKey h]
    constructor <;> simp
  · intro h
    cases hs : startSMB V with
    | true =>
      cases hm : cas (etcdPrefixState ++ V) VolState.Intermediate.str VolState.Mounted.str with
      | true =>
        rw [tr01_ok cas startSMB stopSMB V prevKey h hs hm]
        simp
      | false =>
        rw [tr01_casfail cas startSMB stopSMB V prevKey h hs hm]
        simp
    | false =>
      rw [tr01_startfail cas startSMB stopSMB V prevKey h hs]
      simp
  · intro h w r
    rw [tr10_lost cas startSMB stopSMB V prevKey h]
    constructor <;> simp
  · intro h
    cases hs : stopSMB V with
    | true =>
      cases hm : cas (etcdPrefixState ++ V) VolState.Intermediate.str VolState.Ready.str with
      | true =>
        rw [tr10_ok cas startSMB stopSMB V prevKey h hs hm]
        simp
      | false =>
        rw [tr10_casfail cas startSMB stopSMB V prevKey h hs hm]
        simp
    | false =>
      rw [tr10_stopfail cas startSMB stopSMB V prevKey h hs]
      simp
  · intro ops hclaim hfollow hsome
    apply race_one_win VolState.Ready.str VolState.Intermediate.str (by decide) ops hclaim
      ?_ hsome
    intro op hop hic
    obtain ⟨ho, hn⟩ := hfollow op hop hic
    refine ⟨by rw [ho]; decide, ?_⟩
    rcases hn with hn | hn <;> rw [hn] <;> decide
  · intro ops hclaim hfollow hsome
    apply race_one_win VolState.Mounted.str VolState.Intermediate.str (by decide) ops hclaim
      ?_ hsome
    intro op hop hic
    obtain ⟨ho, hn⟩ := hfollow op hop hic
    refine ⟨by rw [ho]; decide, ?_⟩
    rcases hn with hn | hn <;> rw [hn] <;> decide

/-- Witness for C4 at a concrete input: two racing claims and one
follow-up on a Ready cell produce exactly one win. -/
theorem C4_exactly_one_side_effect_witness :
    claimWinCount VolState.Ready.str
      [{ isClaim := true, oldVal := VolState.Ready.str, newVal := VolState.Intermediate.str },
       { isClaim := true, oldVal := VolState.Ready.str, newVal := VolState.Intermediate.str },
       { isClaim := false, oldVal := VolState.Intermediate.str, newVal := VolState.Mounted.str }] = 1 :=
  (C4_exactly_one_side_effect (fun _ _ _ => true) (fun _ => true) (fun _ => true) "v" "p").2.2.2.2.1
    _ (by decide) (by decide) (by decide)

theorem readLoop_go (s : Store) (keys : List String) :
    ∀ acc n,
      List.foldl
        (fun acc k =>
          match s k with
          | none => (acc.1, acc.2 + 1)
          | some v => (acc.1 ++ [kvPair.mk k v], acc.2)) (acc, n) keys =
      (acc ++ (readLoop s keys).1, n + (readLoop s keys).2) := by
  induction keys with
  | nil => intro acc n; simp [readLoop]
  | cons k keys ih =>
    intro acc n
    simp only [List.foldl_cons, readLoop]
    cases hk : s k with
    | none =>
      simp only [hk]
      rw [ih]
      rw [ih]
      simp
      omega
    | some v =>
      simp only [hk]
      rw [ih]
      rw [ih]
      simp

theorem readLoop_cons (s : Store) (k : String) (keys : List String) :
    readLoop s (k :: keys) =
      match s k with
      | none => ((readLoop s keys).1, 1 + (readLoop s keys).2)
      | some v => (kvPair.mk k v :: (readLoop s keys).1, (readLoop s keys).2) := by
  unfold readLoop
  simp only [List.foldl_cons]
  cases hk : s k with
  | none =>
    simp only [hk]
    rw [readLoop_go]
    simp [readLoop]
  | some v =>
    simp only [hk]
    rw [readLoop_go]
    simp [readLoop]

theorem readLoop_all_absent (s : Store) (keys : List String)
    (h : ∀ k ∈ keys, s k = none) :
    readLoop s keys = ([], keys.length) := by
  induction keys with
  | nil => rfl
  | cons k keys ih =>
    rw [readLoop_cons, h k (List.mem_cons_self k keys)]
    simp [ih (fun q hq => h q (List.mem_cons_of_mem k hq))]
    omega

theorem readLoop_all_present (s : Store) (keys : List String)
    (h : ∀ k ∈ keys, (s k).isSome = true) :
    readLoop s keys = (keys.map (fun k => kvPair.mk k ((s k).getD "")), 0) := by
  induction keys with
  | nil => rfl
  | cons k keys ih =>
    obtain ⟨v, hv⟩ := Option.isSome_iff_exists.mp (h k (List.mem_cons_self k keys))
    rw [readLoop_cons, hv]
    simp [ih (fun q hq => h q (List.mem_cons_of_mem k hq)), hv]

theorem readLoop_missed_countP (s : Store) (keys : List String) :
    (readLoop s keys).2 = keys.countP (fun k => (s k).isNone) := by
  induction keys with
  | nil => rfl
  | cons k keys ih =>
    rw [readLoop_cons]
    cases hk : s k with
    | none => simp [List.countP_cons, hk, ih]; omega
    | some v => simp [List.countP_cons, hk, ih]

/-- C5: for every non-empty key list, ReadVolMetadata returns the
VolumeDoesNotExist error when every requested key is absent from the
store; it panics (fails hard, returning no partial data) when at least one
but not all requested keys are absent; and when every key is present it
returns exactly one (key, stored value) entry per requested key, in key
order. -/
theorem C5_read_outcomes (s : Store) (keys : List String) (hne : keys ≠ []) :
    ((∀ k ∈ keys, s k = none) →
      ReadVolMetadata s keys = ReadResult.err VolumeDoesNotExistError) ∧
    ((∃ k ∈ keys, s k = none) → (∃ k ∈ keys, (s k).isSome = true) →
      ReadVolMetadata s keys = ReadResult.panicked) ∧
    ((∀ k ∈ keys, (s k).isSome = true) →
      ReadVolMetadata s keys =
        ReadResult.ok (keys.map (fun k => kvPair.mk k ((s k).getD "")))) := by
  refine ⟨?_, ?_, ?_⟩
  · intro h
    rw [ReadVolMetadata, readLoop_all_absent s keys h]
    simp
  · intro habs hpres
    have hm : (readLoop s keys).2 = keys.countP (fun k => (s k).isNone) :=
      readLoop_missed_countP s keys
    have hpos : 0 < keys.countP (fun k => (s k).isNone) := by
      apply List.countP_pos_iff.mpr
      obtain ⟨k, hk, hkn⟩ := habs
      exact ⟨k, hk, by simp [hkn]⟩
    have hlt : keys.countP (fun k => (s k).isNone) ≠ keys.length := by
      intro heq
      obtain ⟨k, hk, hks⟩ := hpres
      have := List.countP_eq_length.mp heq k hk
      simp [Option.isNone_iff_eq_none] at this
      rw [this] at hks
      simp at hks
    rw [ReadVolMetadata]
    rcases hr : readLoop s keys with ⟨entries, missed⟩
    rw [hr] at hm
    simp only at hm
    subst hm
    simp [hlt, hpos]
  · intro h
    rw [ReadVolMetadata, readLoop_all_present s keys h]
    have : keys.length ≠ 0 := by
      intro h0
      exact hne (List.length_eq_zero.mp h0)
    simp [this]
    omega

/-- Witness for C5 at a concrete input: a store holding one key, read back. -/
theorem C5_read_outcomes_witness :
    ReadVolMetadata (fun q => if q = "SVOLS_stat_v" then some "Ready" else none)
      ["SVOLS_stat_v"] = ReadResult.ok [kvPair.mk "SVOLS_stat_v" "Ready"] := by
  have h := (C5_read_outcomes (fun q => if q = "SVOLS_stat_v" then some "Ready" else none)
    ["SVOLS_stat_v"] (by decide)).2.2 (by decide)
  simpa using h

/-- C6: after a successful WriteVolMetadata of (K, v), ReadVolMetadata
([K]) returns [(K, v)]; after writing the three keys of a volume V and
then deleting V, reading the three keys returns the VolumeDoesNotExist
error; and DeleteVolMetadata removes all three keys in its single
transaction and succeeds on any store, also when some keys were already
absent. -/
theorem C6_roundtrip (s : Store) (K v V sval gval ival : String) :
    (∀ s1, WriteVolMetadata s [kvPair.mk K v] = WriteResult.okPut s1 →
      ReadVolMetadata s1 [K] = ReadResult.ok [kvPair.mk K v]) ∧
    (∀ s3, WriteVolMetadata s
        [kvPair.mk (etcdPrefixState ++ V) sval,
         kvPair.mk (etcdPrefixGRef ++ V) gval,
         kvPair.mk (etcdPrefixInfo ++ V) ival] = WriteResult.okTxn s3 →
      ReadVolMetadata (DeleteVolMetadata s3 V)
        [etcdPrefixState ++ V, etcdPrefixGRef ++ V, etcdPrefixInfo ++ V] =
        ReadResult.err VolumeDoesNotExistError) ∧
    (∀ (t : Store) (name : String),
      ∀ k ∈ [etcdPrefixState ++ name, etcdPrefixGRef ++ name, etcdPrefixInfo ++ name],
        DeleteVolMetadata t name k = none) := by
  refine ⟨?_, ?_, ?_⟩
  · intro s1 h
    simp only [WriteVolMetadata, List.length_cons, List.length_nil] at h
    simp only [show ¬ (0 + 1 > 1) by omega, if_neg] at h
    have hs1 : s1 = applyPut s K v := by
      cases h
      rfl
    subst hs1
    rw [ReadVolMetadata, readLoop_cons]
    simp [applyPut, readLoop]
  · intro s3 h
    have h1 : DeleteVolMetadata s3 V (etcdPrefixState ++ V) = none := by
      simp [DeleteVolMetadata, applyDelete]
    have h2 : DeleteVolMetadata s3 V (etcdPrefixGRef ++ V) = none := by
      simp [DeleteVolMetadata, applyDelete]
    have h3 : DeleteVolMetadata s3 V (etcdPrefixInfo ++ V) = none := by
      simp [DeleteVolMetadata, applyDelete]
    rw [ReadVolMetadata, readLoop_all_absent]
    · simp
    · intro k hk
      simp only [List.mem_cons, List.not_mem_nil, or_false] at hk
      rcases hk with rfl | rfl | rfl
      · exact h1
      · exact h2
      · exact h3
  · intro t name k hk
    simp only [List.mem_cons, List.not_mem_nil, or_false] at hk
    rcases hk with rfl | rfl | rfl <;> simp [DeleteVolMetadata, applyDelete]

/-- Witness for C6 at a concrete input: write then read one key. -/
theorem C6_roundtrip_witness :
    ReadVolMetadata (applyPut (fun _ => none) "k1" "x1") ["k1"] =
      ReadResult.ok [kvPair.mk "k1" "x1"] :=
  (C6_roundtrip (fun _ => none) "k1" "x1" "v" "Ready" "0" "info").1
    (applyPut (fun _ => none) "k1" "x1") rfl

/-- C7: when Bootstrap runs on a manager-follower and the member list has
a member whose peer URL equals this node's peer URL: with a non-empty Name
the member is removed by its ID and then MemberAdd is issued with this
node's peer URL; with an empty Name no member RPC at all is issued
(MemberAdd skipped) and the initial-cluster string is derived from the
originally listed members with non-empty Name; in every case the string
ends in this node's own name=peerURL entry and the process is spawned
with cluster-state existing. -/
theorem C7_follower_rejoin (lresp aresp : List Member) (nodeID nodeAddr : String) (m : Member) :
    (lresp.find? (fun x => x.peerURL == etcdScheme ++ nodeAddr ++ etcdPeerPort) = some m →
      (m.name ≠ "" →
        (joinEtcdCluster lresp aresp nodeID nodeAddr).actions =
          [MemberAction.remove m.id,
           MemberAction.add (etcdScheme ++ nodeAddr ++ etcdPeerPort)]) ∧
      (m.name = "" →
        (joinEtcdCluster lresp aresp nodeID nodeAddr).actions = [] ∧
        (joinEtcdCluster lresp aresp nodeID nodeAddr).initialCluster =
          clusterFragment lresp ++ nodeID ++ "=" ++ etcdScheme ++ nodeAddr ++ etcdPeerPort)) ∧
    (joinEtcdCluster lresp aresp nodeID nodeAddr).clusterState = etcdClusterStateExisting ∧
    (∃ pre, (joinEtcdCluster lresp aresp nodeID nodeAddr).initialCluster =
      pre ++ nodeID ++ "=" ++ etcdScheme ++ nodeAddr ++ etcdPeerPort) := by
  refine ⟨?_, ?_, ?_⟩
  · intro hfind
    constructor
    · intro hname
      have hb : (m.name == "") = false := by
        simpa using hname
      simp [joinEtcdCluster, hfind, hb]
    · intro hname
      have hb : (m.name == "") = true := by
        simpa using hname
      simp [joinEtcdCluster, hfind, hb]
  · simp [joinEtcdCluster]
  · exact ⟨_, rfl⟩

/-- Witness for C7 at a concrete input: a started member with the same
peer URL is removed and re-added. -/
theorem C7_follower_rejoin_witness :
    (joinEtcdCluster
      [{ id := 7, name := "m1", peerURL := "http://10.0.0.5:2380" }]
      [{ id := 7, name := "m1", peerURL := "http://10.0.0.5:2380" },
       { id := 9, name := "", peerURL := "http://10.0.0.6:2380" }]
      "node2" "10.0.0.5").actions =
      [MemberAction.remove 7, MemberAction.add "http://10.0.0.5:2380"] := by
  have h := (C7_follower_rejoin
    [{ id := 7, name := "m1", peerURL := "http://10.0.0.5:2380" }]
    [{ id := 7, name := "m1", peerURL := "http://10.0.0.5:2380" },
     { id := 9, name := "", peerURL := "http://10.0.0.6:2380" }]
    "node2" "10.0.0.5"
    { id := 7, name := "m1", peerURL := "http://10.0.0.5:2380" }).1
    (by decide) |>.1 (by decide)
  simpa using h

/-- C8: the claim fails on the code. On the leader path a local store
that never comes up within the five polls of the 5 s window makes Init
return the timeout error, as claimed; but on the manager-follower path
Init discards joinEtcdCluster's return value (etcdops.go line 166) and
returns success even though checkLocalEtcd timed out, so the
BootstrapTimeout failure never reaches Init's caller. The last conjunct
shows the leader path succeeding, caching the client and spawning the
watcher, once a poll connects. -/
theorem C8_bootstrap_timeout_paths :
    checkLocalEtcd [false, false, false, false, false] = (CheckResult.timedOut, []) ∧
    Init SwarmRole.leader true [false, false, false, false, false] =
      (some bootstrapTimeoutMsg, []) ∧
    Init SwarmRole.follower true [false, false, false, false, false] = (none, []) ∧
    Init SwarmRole.leader true [false, true] =
      (none, [BootAction.cacheClient, BootAction.spawnWatcher]) := by
  refine ⟨rfl, rfl, rfl, rfl⟩

/-- C9 counterexample: CompareAndPut runs its transaction on the cached
watcher client with context.TODO - it creates no fresh client, closes
nothing, and its store operation carries no 5 second deadline - so the
claimed per-call client discipline is false. -/
theorem C9_counterexample_compareAndPut : ¬ freshClientPerCall compareAndPutClientOps := by
  decide

/-- C9 amended: WriteVolMetadata, ReadVolMetadata and DeleteVolMetadata
each create a fresh client at entry and release it before returning but
issue their store operation with no deadline; ListVolumeName creates a
fresh client and applies the 5 second deadline but never releases the
client; CompareAndPut only runs its store operation, with no deadline, on
the cached watcher client. -/
theorem C9_client_discipline_amended :
    (writeVolMetadataClientOps.head? = some ClientAction.createClient ∧
     writeVolMetadataClientOps.getLast? = some ClientAction.closeClient ∧
     ClientAction.storeOp none ∈ writeVolMetadataClientOps) ∧
    (readVolMetadataClientOps.head? = some ClientAction.createClient ∧
     readVolMetadataClientOps.getLast? = some ClientAction.closeClient ∧
     ClientAction.storeOp none ∈ readVolMetadataClientOps) ∧
    (deleteVolMetadataClientOps.head? = some ClientAction.createClient ∧
     deleteVolMetadataClientOps.getLast? = some ClientAction.closeClient ∧
     ClientAction.storeOp none ∈ deleteVolMetadataClientOps) ∧
    (listVolumeNameClientOps.head? = some ClientAction.createClient ∧
     ClientAction.closeClient ∉ listVolumeNameClientOps ∧
     ClientAction.storeOp (some 5) ∈ listVolumeNameClientOps) ∧
    (ClientAction.createClient ∉ compareAndPutClientOps ∧
     ClientAction.closeClient ∉ compareAndPutClientOps ∧
     compareAndPutClientOps = [ClientAction.storeOp none]) := by
  decide

/-- C10: WriteVolMetadata is total only for non-empty entry lists: with
more than one entry it commits a transaction, with exactly one entry a
single Put, and with an empty list it indexes the first element of an
empty operation batch and panics instead of returning success or an
error. -/
theorem C10_write_totality (s : Store) (entries : List kvPair) :
    (1 < entries.length → ∃ s1, WriteVolMetadata s entries = WriteResult.okTxn s1) ∧
    (entries.length = 1 → ∃ s1, WriteVolMetadata s entries = WriteResult.okPut s1) ∧
    (entries = [] → WriteVolMetadata s entries = WriteResult.panicked) := by
  refine ⟨?_, ?_, ?_⟩
  · intro h
    refine ⟨entries.foldl (fun acc e => applyPut acc e.key e.value) s, ?_⟩
    simp [WriteVolMetadata, h]
  · intro h
    match entries, h with
    | [e], _ =>
      refine ⟨applyPut s e.key e.value, ?_⟩
      simp [WriteVolMetadata]
  · intro h
    subst h
    simp [WriteVolMetadata]

/-- Witness for C10 at concrete inputs: one entry writes as a single Put,
an empty list panics. -/
theorem C10_write_totality_witness :
    (∃ s1, WriteVolMetadata (fun _ => none) [kvPair.mk "k" "v"] = WriteResult.okPut s1) ∧
    WriteVolMetadata (fun _ => none) [] = WriteResult.panicked :=
  ⟨(C10_write_totality (fun _ => none) [kvPair.mk "k" "v"]).2.1 rfl,
   (C10_write_totality (fun _ => none) []).2.2 rfl⟩

end EtcdOps
